import Mathlib

/-!
Verification of the AstroQuiz serverless core: the anomaly-based integrity
scorer and the multi-provider AI fallback logic of the Supabase edge
functions, embedded shallowly in Lean.

JavaScript numbers appearing in the scorer are modelled as rationals
(the inputs are integers and every operation performed on them is a
division or comparison, which ℚ reproduces exactly on the in-range
inputs the endpoint receives); strings are Lean `String`s; thrown
exceptions and fallible steps are `Option`/`Except`; the outcome of an
outbound provider HTTP call is abstracted as a function from the
provider to `Except String String` (error message or response text).
-/

namespace AstroQuiz

/-! ## Integrity scorer
Embeds `performAnomalyDetection` and `DETECTION_THRESHOLDS` from the
cheat-detection edge function. -/

/-- Request fields used by the scorer (`CheatDetectionRequest`). -/
structure CheatDetectionRequest where
  score : ℚ
  total_questions : ℚ
  time_taken : ℚ
  streak : ℚ

/-- Field `analysis_details` of `CheatDetectionResponse`. -/
structure AnalysisDetails where
  time_per_question : ℚ
  accuracy_percentage : ℚ
  speed_analysis : String
  pattern_analysis : String
deriving DecidableEq, Repr

/-- Response type `CheatDetectionResponse`; `suspicion_reason` is the string variable of
the source, initialised to the empty string. -/
structure CheatDetectionResponse where
  is_suspicious : Bool
  suspicion_reason : String
  confidence_score : ℚ
  analysis_details : AnalysisDetails
deriving DecidableEq, Repr

/-- Constants `DETECTION_THRESHOLDS` of the cheat-detection function. -/
structure DetectionThresholds where
  IMPOSSIBLE_SPEED : ℚ
  EXTREMELY_FAST : ℚ
  PERFECT_SCORE_TIME_LIMIT : ℚ
  HIGH_SCORE_FAST_TIME : ℚ
  MINIMUM_EXPECTED_TIME : ℚ

def DETECTION_THRESHOLDS : DetectionThresholds :=
  { IMPOSSIBLE_SPEED := 1
    EXTREMELY_FAST := 2
    PERFECT_SCORE_TIME_LIMIT := 15
    HIGH_SCORE_FAST_TIME := 3
    MINIMUM_EXPECTED_TIME := 5 }

/-- Working state of the speed if/else-if chain of
`performAnomalyDetection` (the four mutable locals it assigns). -/
structure SpeedVerdict where
  isSuspicious : Bool
  suspicionReason : String
  confidenceScore : ℚ
  speedAnalysis : String
deriving DecidableEq, Repr

/-- The speed classification chain of `performAnomalyDetection`
(the five `if`/`else if` branches guarded by `DETECTION_THRESHOLDS`),
starting from the initial state
`isSuspicious = false`, empty `suspicionReason`, `confidenceScore = 0`,
`speedAnalysis = Normal`. -/
def speedChain (timePerQuestion accuracyPercentage time_taken : ℚ) :
    SpeedVerdict :=
  if timePerQuestion < DETECTION_THRESHOLDS.IMPOSSIBLE_SPEED then
    { isSuspicious := true
      suspicionReason := "Impossible completion speed detected"
      confidenceScore := 0.95
      speedAnalysis := "Impossible - Less than 1 second per question" }
  else if timePerQuestion < DETECTION_THRESHOLDS.EXTREMELY_FAST then
    { isSuspicious := true
      suspicionReason := "Extremely fast completion speed"
      confidenceScore := 0.85
      speedAnalysis := "Extremely Fast - Less than 2 seconds per question" }
  else if accuracyPercentage = 100 ∧
      time_taken < DETECTION_THRESHOLDS.PERFECT_SCORE_TIME_LIMIT then
    { isSuspicious := true
      suspicionReason := "Perfect score achieved in impossibly short time"
      confidenceScore := 0.90
      speedAnalysis := "Suspicious - Perfect score too fast" }
  else if accuracyPercentage ≥ 80 ∧
      timePerQuestion < DETECTION_THRESHOLDS.HIGH_SCORE_FAST_TIME then
    { isSuspicious := true
      suspicionReason := "High accuracy with suspiciously fast completion"
      confidenceScore := 0.75
      speedAnalysis := "Suspicious - High score with fast completion" }
  else if timePerQuestion < DETECTION_THRESHOLDS.MINIMUM_EXPECTED_TIME ∧
      accuracyPercentage > 50 then
    { isSuspicious := true
      suspicionReason := "Completion time significantly below expected minimum"
      confidenceScore := 0.70
      speedAnalysis := "Below Expected Minimum" }
  else
    { isSuspicious := false
      suspicionReason := ""
      confidenceScore := 0
      speedAnalysis := "Normal" }

/-- Function `performAnomalyDetection`: derives `timePerQuestion` and
`accuracyPercentage`, runs the speed chain, then the pattern-analysis
block (which only overwrites suspicion data when `!isSuspicious`), and
assembles the response object returned by the source. -/
def performAnomalyDetection (r : CheatDetectionRequest) :
    CheatDetectionResponse :=
  let timePerQuestion := r.time_taken / r.total_questions
  let accuracyPercentage := r.score / r.total_questions * 100
  let sv := speedChain timePerQuestion accuracyPercentage r.time_taken
  let patterned :=
    if r.streak = r.total_questions ∧ timePerQuestion < 3 then
      if sv.isSuspicious then
        (sv, "Perfect streak with fast completion - Highly Suspicious")
      else
        ({ isSuspicious := true
           suspicionReason :=
             "Perfect streak achieved with suspiciously fast timing"
           confidenceScore := 0.80
           speedAnalysis := sv.speedAnalysis },
         "Perfect streak with fast completion - Highly Suspicious")
    else if r.streak ≥ r.total_questions * 0.8 then
      (sv, "High streak percentage")
    else
      (sv, "Normal")
  { is_suspicious := patterned.1.isSuspicious
    suspicion_reason := patterned.1.suspicionReason
    confidence_score := patterned.1.confidenceScore
    analysis_details :=
      { time_per_question := timePerQuestion
        accuracy_percentage := accuracyPercentage
        speed_analysis := patterned.1.speedAnalysis
        pattern_analysis := patterned.2 } }

/-! ## Integrity endpoint input validation
Embeds the validation of the request body in the serve handler:
`if (!request.session_id || !request.user_id || typeof request.score !==
number || typeof request.total_questions !== number || typeof
request.time_taken !== number)` → HTTP 400, else the scorer runs. -/

/-- A JSON value as far as the validation code can distinguish one:
a string, a number, or null. -/
inductive JVal where
  | jstr (s : String)
  | jnum (q : ℚ)
  | jnull
deriving DecidableEq, Repr

/-- JavaScript truthiness of an optional request field (`undefined`,
`null`, the empty string and `0` are falsy). -/
def truthy : Option JVal → Bool
  | none => false
  | some (.jstr s) => !(s == "")
  | some (.jnum q) => !(q == 0)
  | some .jnull => false

/-- The check typeof x === number. -/
def isNumber : Option JVal → Bool
  | some (.jnum _) => true
  | _ => false

/-- The parsed request body of the cheat-detection endpoint; `none`
models an absent field. -/
structure RawBody where
  session_id : Option JVal
  user_id : Option JVal
  score : Option JVal
  total_questions : Option JVal
  time_taken : Option JVal
  streak : Option JVal
deriving DecidableEq, Repr

/-- The validation condition of the cheat-detection handler.  The source
checks the truthiness of `session_id` and `user_id` and that `score`,
`total_questions` and `time_taken` are numbers; it does not inspect
`streak`, and it performs no positivity check on `total_questions`. -/
def validateCheatInput (b : RawBody) : Bool :=
  truthy b.session_id && truthy b.user_id &&
    isNumber b.score && isNumber b.total_questions && isNumber b.time_taken

/-- The numeric value the scorer reads from a field. -/
def numVal : Option JVal → ℚ
  | some (.jnum q) => q
  | _ => 0

/-- The `CheatDetectionRequest` the handler hands to the scorer. -/
def toCheatRequest (b : RawBody) : CheatDetectionRequest :=
  { score := numVal b.score
    total_questions := numVal b.total_questions
    time_taken := numVal b.time_taken
    streak := numVal b.streak }

/-- The handler gate: HTTP 400 on failed validation, otherwise
`performAnomalyDetection` is evaluated on the parsed fields. -/
def cheatHandler (b : RawBody) : Except Nat CheatDetectionResponse :=
  if validateCheatInput b then
    .ok (performAnomalyDetection (toCheatRequest b))
  else .error 400

/-! ## Provider fallback
The three edge functions (generate-questions, ai-tutor-chat,
translate-text) contain the same provider selection and
`for (const provider of providers)` try/catch loop verbatim; it is
embedded once here.  The outcome of one outbound call to a provider
adapter is abstracted as `outcome : Provider → Except String String`
(error message thrown, or response text). -/

inductive Provider where
  | openai
  | huggingface
  | pythonanywhere
deriving DecidableEq, Repr

def providerName : Provider → String
  | .openai => "openai"
  | .huggingface => "huggingface"
  | .pythonanywhere => "pythonanywhere"

/-- The nested ternary computing `providers` from the `AI_PROVIDER`
configuration value. -/
def providerOrder (aiProvider : String) : List Provider :=
  if aiProvider = "openai" then [.openai, .huggingface, .pythonanywhere]
  else if aiProvider = "huggingface" then
    [.huggingface, .openai, .pythonanywhere]
  else [.pythonanywhere, .openai, .huggingface]

/-- Result of the provider loop: success with the provider that
delivered, exhaustion with the last error (the loop returned the 500
response at the last provider), or fall-through (the loop ended without
either — unreachable for the lists the source builds, where the last
loop element equals `providers[providers.length - 1]`). -/
inductive LoopOutcome where
  | success (used : Provider) (content : String)
  | exhausted (lastError : String)
  | incomplete
deriving DecidableEq, Repr

/-- The try/catch loop: try each provider in order; on success break; on
failure, if the current provider equals `providers[providers.length - 1]`
(`lastP`) return the terminal error, else continue.  Also returns the
list of providers actually invoked, in order. -/
def providerLoop (outcome : Provider → Except String String)
    (lastP : Provider) : List Provider → List Provider × LoopOutcome
  | [] => ([], .incomplete)
  | p :: rest =>
    match outcome p with
    | .ok c => ([p], .success p c)
    | .error e =>
      if p = lastP then ([p], .exhausted e)
      else
        let r := providerLoop outcome lastP rest
        (p :: r.1, r.2)

/-- Success response fields shared by the three functions. -/
structure SuccessBody where
  content : String
  provider_used : String
  fallback_used : Bool
deriving DecidableEq, Repr

/-- The 500 body of the exhaustion branch. -/
structure FailureBody where
  status : Nat
  attempted_providers : List String
  details : String
deriving DecidableEq, Repr

inductive FallbackResult where
  | ok (s : SuccessBody)
  | err (f : FailureBody)
  | crash
deriving DecidableEq, Repr

/-- The provider loop plus the response construction shared by the three
functions: on success `{provider_used: usedProvider, fallback_used:
usedProvider !== aiProvider}`; on exhaustion HTTP 500 with
`attempted_providers: providers` and
`details: All providers failed. Last error: <lastError>`. -/
def runFallback (aiProvider : String)
    (outcome : Provider → Except String String) :
    List Provider × FallbackResult :=
  let providers := providerOrder aiProvider
  let r := providerLoop outcome (providers.getLastD .openai) providers
  match r.2 with
  | .success p c =>
    (r.1, .ok ⟨c, providerName p, providerName p != aiProvider⟩)
  | .exhausted e =>
    (r.1, .err ⟨500, providers.map providerName,
      "All providers failed. Last error: " ++ e⟩)
  | .incomplete => (r.1, .crash)

/-- JavaScript `s.toLowerCase()` (character-wise lowering, written over
the character list so that it is kernel-computable). -/
def jsToLower (s : String) : String := ⟨s.data.map Char.toLower⟩

/-- JavaScript `s.trim()`: strip leading and trailing whitespace
(written over the character list so that it is kernel-computable). -/
def jsTrim (s : String) : String :=
  ⟨((s.data.dropWhile Char.isWhitespace).reverse.dropWhile
      Char.isWhitespace).reverse⟩

/-- Responses of the translate-text handler. -/
inductive TranslateResult where
  | badRequest (error : String)
  | ok (translatedText provider_used : String) (fallback_used : Bool)
  | errAll (f : FailureBody)
  | crash
deriving DecidableEq, Repr

/-- The translate-text handler: validates `text` and `targetLang`,
short-circuits English targets returning the original text with
`provider_used` equal to `none`, and otherwise routes through the provider
chain.  Also returns the providers invoked. -/
def translateHandler (aiProvider text targetLang : String)
    (outcome : Provider → Except String String) :
    List Provider × TranslateResult :=
  if jsTrim text = "" then
    ([], .badRequest "Text is required and must be a non-empty string.")
  else if jsTrim targetLang = "" then
    ([], .badRequest
      "Target language is required and must be a non-empty string.")
  else if jsToLower targetLang = "en" ∨ jsToLower targetLang = "english" then
    ([], .ok text "none" false)
  else
    match runFallback aiProvider outcome with
    | (calls, .ok s) => (calls, .ok s.content s.provider_used s.fallback_used)
    | (calls, .err f) => (calls, .errAll f)
    | (calls, .crash) => (calls, .crash)

/-- Responses of the ai-tutor-chat handler. -/
inductive ChatResult where
  | badRequest (error : String)
  | ok (response provider_used : String) (fallback_used : Bool)
  | errAll (f : FailureBody)
  | crash
deriving DecidableEq, Repr

/-- The ai-tutor-chat handler: validates `message`, then routes through
the provider chain. -/
def chatHandler (aiProvider message : String)
    (outcome : Provider → Except String String) :
    List Provider × ChatResult :=
  if jsTrim message = "" then
    ([], .badRequest "Message is required and must be a non-empty string.")
  else
    match runFallback aiProvider outcome with
    | (calls, .ok s) => (calls, .ok s.content s.provider_used s.fallback_used)
    | (calls, .err f) => (calls, .errAll f)
    | (calls, .crash) => (calls, .crash)

/-! ## Question-generation adapter (`tryPythonAnywhere`)
Embeds the option normalisation and shuffling of the question-generation
adapter: extraction has already produced `extractedOptions` (2–5
non-empty trimmed strings) and the parsed `CorrectOption` number.
Thrown errors are `none`. -/

/-- The destructuring swap
`[shuffled[i], shuffled[j]] = [shuffled[j], shuffled[i]]` on a list;
out-of-range indices leave the list unchanged (they cannot occur in
`shuffleArray`). -/
def listSwap {α : Type} (l : List α) (i j : Nat) : List α :=
  match l.get? i, l.get? j with
  | some a, some b => (l.set i b).set j a
  | _, _ => l

/-- The loop of `shuffleArray`, with `i` counting down from
`shuffled.length - 1` to `1`; the random draw
`Math.floor(Math.random() * (i + 1))` at index `i` is modelled as
`rand i % (i + 1)`, with `rand` ranging over all functions so that every
sequence of draws is covered. -/
def fyGo {α : Type} (rand : Nat → Nat) : Nat → List α → List α
  | 0, l => l
  | i + 1, l => fyGo rand i (listSwap l (i + 1) (rand (i + 1) % (i + 2)))

/-- Function `shuffleArray` (Fisher-Yates) from the generate-questions function. -/
def shuffleArray {α : Type} (rand : Nat → Nat) (l : List α) : List α :=
  fyGo rand (l.length - 1) l

/-- The deduplication loop: `for (const option of finalOptions) if
(!uniqueOptions.includes(option)) uniqueOptions.push(option)`. -/
def dedupGo (uniqueOptions : List String) : List String → List String
  | [] => uniqueOptions
  | o :: rest =>
    if o ∈ uniqueOptions then dedupGo uniqueOptions rest
    else dedupGo (uniqueOptions ++ [o]) rest

/-- The loop while length < 4 pushing `Option <length + 1>`; the loop
variant `4 - length` bounds it by the fuel. -/
def padOptions : Nat → List String → List String
  | 0, l => l
  | fuel + 1, l =>
    if l.length < 4 then
      padOptions fuel (l ++ ["Option " ++ toString (l.length + 1)])
    else l

/-- The inner `while (uniqueOptions.includes(genericOption))` search for
an unused `Alternative <idx>_<counter>` name, bounded by fuel (the list
holds at most 3 entries here, so the bound is never reached). -/
def freshAltGo (l : List String) (idx counter : Nat) : Nat → String
  | 0 => "Alternative " ++ toString idx ++ "_" ++ toString counter
  | fuel + 1 =>
    let g := "Alternative " ++ toString idx ++ "_" ++ toString counter
    if g ∈ l then freshAltGo l idx (counter + 1) fuel else g

/-- The generic option name `Alternative <length>` followed by the
counter loop. -/
def freshAlternative (l : List String) (idx : Nat) : String :=
  let g := "Alternative " ++ toString idx
  if g ∈ l then freshAltGo l idx 1 8 else g

/-- The loop while length < 4 pushing a generic option, with the
fresh-name search. -/
def padAlternatives : Nat → List String → List String
  | 0, l => l
  | fuel + 1, l =>
    if l.length < 4 then
      padAlternatives fuel (l ++ [freshAlternative l l.length])
    else l

/-- Option normalisation and shuffling of `tryPythonAnywhere`: the
`< 2` options check, the `CorrectOption` range check, truncation to 4
options (preserving the correct answer when its index is ≥ 4), padding
to 4, `correctAnswer = finalOptions[Math.min(correctAnswerIndex, 3)]`,
deduplication (keeping first occurrences) with generic re-padding,
`slice(0, 4)`, the Fisher–Yates shuffle of the `{option, originalIndex}`
pairs projected back to options, and the final
`shuffledOptions.indexOf(correctAnswer) === -1` check. -/
def normalizeAndShuffle (extractedOptions : List String)
    (correctOptionNumber : Nat) (rand : Nat → Nat) :
    Option (List String × Nat) :=
  if extractedOptions.length < 2 then none
  else if correctOptionNumber < 1 ∨
      correctOptionNumber > extractedOptions.length then none
  else
    let correctAnswerIndex := correctOptionNumber - 1
    match extractedOptions.get? correctAnswerIndex with
    | none => none
    | some correctAnswerText =>
      let finalOptions0 :=
        if extractedOptions.length > 4 then
          if correctAnswerIndex ≥ 4 then
            (extractedOptions.set 3 correctAnswerText).take 4
          else extractedOptions.take 4
        else extractedOptions
      let finalOptions1 := padOptions 4 finalOptions0
      match finalOptions1.get? (min correctAnswerIndex 3) with
      | none => none
      | some correctAnswer =>
        let uniqueOptions := padAlternatives 4 (dedupGo [] finalOptions1)
        let finalOptions := uniqueOptions.take 4
        let optionsWithIndex := finalOptions.enum
        let shuffledOptions :=
          (shuffleArray rand optionsWithIndex).map Prod.snd
        let newCorrectIndex := shuffledOptions.indexOf correctAnswer
        if correctAnswer ∈ shuffledOptions then
          some (shuffledOptions, newCorrectIndex)
        else none

/-- A concrete adapter-outcome assignment for the witnesses: the first
two providers of the default order fail and the third succeeds. -/
def demoOutcome : Provider → Except String String
  | .openai => .error "OpenAI API key not configured"
  | .huggingface => .error "Hugging Face API key not configured"
  | .pythonanywhere => .ok "generated"

/-- An adapter-outcome assignment where every provider fails, for the
exhaustion witness. -/
def allFailOutcome : Provider → Except String String
  | .openai => .error "OpenAI API key not configured"
  | .huggingface => .error "Hugging Face API key not configured"
  | .pythonanywhere => .error "PythonAnywhere API error: API returned status 500"

/-- C2: with `total_questions > 0`, the scorer classifies speed by an
ordered first-match-wins chain — `time_per_question < 1` gives confidence
0.95 and the impossible-speed reason; else `< 2` gives 0.85; else a
perfect score in under 15 s total gives 0.90 with its reason; else
accuracy ≥ 80 with `time_per_question < 3` gives 0.75; else
`time_per_question < 5` with accuracy > 50 gives 0.70; and when no speed
rule and no pattern rule fires the verdict is not suspicious with
confidence 0 and speed analysis `Normal`.  The accumulated negated
guards make the classification mutually exclusive. -/
theorem speed_chain_classification (r : CheatDetectionRequest)
    (htq : 0 < r.total_questions) :
    (r.time_taken / r.total_questions < 1 →
      (performAnomalyDetection r).is_suspicious = true ∧
      (performAnomalyDetection r).confidence_score = 0.95 ∧
      (performAnomalyDetection r).suspicion_reason =
        "Impossible completion speed detected") ∧
    (¬ r.time_taken / r.total_questions < 1 →
      r.time_taken / r.total_questions < 2 →
      (performAnomalyDetection r).is_suspicious = true ∧
      (performAnomalyDetection r).confidence_score = 0.85) ∧
    (¬ r.time_taken / r.total_questions < 1 →
      ¬ r.time_taken / r.total_questions < 2 →
      r.score / r.total_questions * 100 = 100 →
      r.time_taken < 15 →
      (performAnomalyDetection r).is_suspicious = true ∧
      (performAnomalyDetection r).confidence_score = 0.90 ∧
      (performAnomalyDetection r).suspicion_reason =
        "Perfect score achieved in impossibly short time") ∧
    (¬ r.time_taken / r.total_questions < 1 →
      ¬ r.time_taken / r.total_questions < 2 →
      ¬ (r.score / r.total_questions * 100 = 100 ∧ r.time_taken < 15) →
      r.score / r.total_questions * 100 ≥ 80 →
      r.time_taken / r.total_questions < 3 →
      (performAnomalyDetection r).is_suspicious = true ∧
      (performAnomalyDetection r).confidence_score = 0.75) ∧
    (¬ r.time_taken / r.total_questions < 1 →
      ¬ r.time_taken / r.total_questions < 2 →
      ¬ (r.score / r.total_questions * 100 = 100 ∧ r.time_taken < 15) →
      ¬ (r.score / r.total_questions * 100 ≥ 80 ∧
          r.time_taken / r.total_questions < 3) →
      r.time_taken / r.total_questions < 5 →
      r.score / r.total_questions * 100 > 50 →
      (performAnomalyDetection r).is_suspicious = true ∧
      (performAnomalyDetection r).confidence_score = 0.70) ∧
    (¬ r.time_taken / r.total_questions < 1 →
      ¬ r.time_taken / r.total_questions < 2 →
      ¬ (r.score / r.total_questions * 100 = 100 ∧ r.time_taken < 15) →
      ¬ (r.score / r.total_questions * 100 ≥ 80 ∧
          r.time_taken / r.total_questions < 3) →
      ¬ (r.time_taken / r.total_questions < 5 ∧
          r.score / r.total_questions * 100 > 50) →
      ¬ (r.streak = r.total_questions ∧
          r.time_taken / r.total_questions < 3) →
      (performAnomalyDetection r).is_suspicious = false ∧
      (performAnomalyDetection r).confidence_score = 0 ∧
      (performAnomalyDetection r).analysis_details.speed_analysis =
        "Normal") := by
  refine ⟨?_, ?_, ?_, ?_, ?_, ?_⟩ <;> intros <;>
    simp only [performAnomalyDetection, speedChain, DETECTION_THRESHOLDS] <;>
    split_ifs <;> simp_all

/-- Witness for `speed_chain_classification` at the worked example
score 3, total 10, time 100, streak 3 (no rule fires). -/
theorem speed_chain_classification_witness :
    (0 : ℚ) < (10 : ℚ) ∧
    ((performAnomalyDetection ⟨3, 10, 100, 3⟩).is_suspicious = false ∧
      (performAnomalyDetection ⟨3, 10, 100, 3⟩).confidence_score = 0 ∧
      (performAnomalyDetection ⟨3, 10, 100, 3⟩).analysis_details.speed_analysis
        = "Normal") := by
  refine ⟨by norm_num, ?_⟩
  have h := (speed_chain_classification ⟨3, 10, 100, 3⟩ (by norm_num)).2.2.2.2.2
  exact h (by norm_num) (by norm_num) (by norm_num) (by norm_num)
    (by norm_num) (by norm_num)

/-- C3 counterexample: at score 10, total 10, time 10 (streak 10), the
chain fires rule 2 (`time_per_question = 1 < 2`, confidence 0.85), not
the perfect-score rule 3 with confidence 0.90 as the claim states. -/
theorem perfect_score_boundary_counterexample :
    (performAnomalyDetection ⟨10, 10, 10, 10⟩).suspicion_reason =
      "Extremely fast completion speed" ∧
    (performAnomalyDetection ⟨10, 10, 10, 10⟩).confidence_score = 0.85 ∧
    ¬ ((performAnomalyDetection ⟨10, 10, 10, 10⟩).confidence_score = 0.90 ∧
       (performAnomalyDetection ⟨10, 10, 10, 10⟩).suspicion_reason =
         "Perfect score achieved in impossibly short time") := by
  norm_num [performAnomalyDetection, speedChain, DETECTION_THRESHOLDS]

/-- C3 amended: at score 10, total 10, time 10 (any streak), the boundary
is strict so the speed is not classified impossible, but
`time_per_question = 1 < 2` fires rule 2: the verdict is suspicious with
confidence 0.85 and the extremely-fast reason (rule 3 is never reached). -/
theorem perfect_score_boundary_amended (streak : ℚ) :
    (performAnomalyDetection ⟨10, 10, 10, streak⟩).is_suspicious = true ∧
    (performAnomalyDetection ⟨10, 10, 10, streak⟩).confidence_score = 0.85 ∧
    (performAnomalyDetection ⟨10, 10, 10, streak⟩).suspicion_reason =
      "Extremely fast completion speed" ∧
    (performAnomalyDetection ⟨10, 10, 10, streak⟩).analysis_details.speed_analysis
      ≠ "Impossible - Less than 1 second per question" := by
  simp only [performAnomalyDetection, speedChain, DETECTION_THRESHOLDS]
  norm_num
  split_ifs <;> simp_all

/-- C5: when `streak = total_questions` and `time_per_question < 3`, the
pattern analysis is the perfect-streak label; if no speed rule fired the
verdict becomes suspicious with confidence 0.80 and the perfect-streak
reason, and if a speed rule fired its reason, confidence and speed label
are kept unchanged. -/
theorem pattern_rule_precedence (r : CheatDetectionRequest)
    (htq : 0 < r.total_questions)
    (hs : r.streak = r.total_questions)
    (htpq : r.time_taken / r.total_questions < 3) :
    (performAnomalyDetection r).analysis_details.pattern_analysis =
      "Perfect streak with fast completion - Highly Suspicious" ∧
    ((speedChain (r.time_taken / r.total_questions)
        (r.score / r.total_questions * 100) r.time_taken).isSuspicious
          = false →
      (performAnomalyDetection r).is_suspicious = true ∧
      (performAnomalyDetection r).confidence_score = 0.80 ∧
      (performAnomalyDetection r).suspicion_reason =
        "Perfect streak achieved with suspiciously fast timing") ∧
    ((speedChain (r.time_taken / r.total_questions)
        (r.score / r.total_questions * 100) r.time_taken).isSuspicious
          = true →
      (performAnomalyDetection r).suspicion_reason =
        (speedChain (r.time_taken / r.total_questions)
          (r.score / r.total_questions * 100) r.time_taken).suspicionReason ∧
      (performAnomalyDetection r).confidence_score =
        (speedChain (r.time_taken / r.total_questions)
          (r.score / r.total_questions * 100) r.time_taken).confidenceScore ∧
      (performAnomalyDetection r).analysis_details.speed_analysis =
        (speedChain (r.time_taken / r.total_questions)
          (r.score / r.total_questions * 100) r.time_taken).speedAnalysis) := by
  simp only [performAnomalyDetection]
  rw [if_pos ⟨hs, htpq⟩]
  split_ifs <;> simp_all

/-- Witness for `pattern_rule_precedence` at score 10, total 10, time 20,
streak 10 (speed rule 4 fires with confidence 0.75 and is kept). -/
theorem pattern_rule_precedence_witness :
    ((0 : ℚ) < 10 ∧ (10 : ℚ) = 10 ∧ (20 : ℚ) / 10 < 3) ∧
    (performAnomalyDetection ⟨10, 10, 20, 10⟩).analysis_details.pattern_analysis
      = "Perfect streak with fast completion - Highly Suspicious" := by
  refine ⟨⟨by norm_num, rfl, by norm_num⟩, ?_⟩
  exact (pattern_rule_precedence ⟨10, 10, 20, 10⟩ (by norm_num) rfl
    (by norm_num)).1

/-- C10: with `total_questions > 0`, the returned confidence score is one
of 0, 0.70, 0.75, 0.80, 0.85, 0.90, 0.95, and the verdict is suspicious
exactly when the confidence is positive. -/
theorem confidence_values_invariant (r : CheatDetectionRequest)
    (htq : 0 < r.total_questions) :
    ((performAnomalyDetection r).confidence_score = 0 ∨
     (performAnomalyDetection r).confidence_score = 0.70 ∨
     (performAnomalyDetection r).confidence_score = 0.75 ∨
     (performAnomalyDetection r).confidence_score = 0.80 ∨
     (performAnomalyDetection r).confidence_score = 0.85 ∨
     (performAnomalyDetection r).confidence_score = 0.90 ∨
     (performAnomalyDetection r).confidence_score = 0.95) ∧
    ((performAnomalyDetection r).is_suspicious = true ↔
      0 < (performAnomalyDetection r).confidence_score) := by
  simp only [performAnomalyDetection, speedChain, DETECTION_THRESHOLDS]
  split_ifs <;> norm_num

/-- Witness for `confidence_values_invariant` at score 5, total 10,
time 4, streak 10 (impossible speed, confidence 0.95). -/
theorem confidence_values_invariant_witness :
    (0 : ℚ) < 10 ∧
    ((performAnomalyDetection ⟨5, 10, 4, 10⟩).is_suspicious = true ↔
      0 < (performAnomalyDetection ⟨5, 10, 4, 10⟩).confidence_score) := by
  exact ⟨by norm_num, (confidence_values_invariant ⟨5, 10, 4, 10⟩
    (by norm_num)).2⟩

/-- C4 counterexample: a request whose `total_questions` is the number 0
(all other fields present and well-typed) passes validation, so the
handler does not return 400 and the scorer divisions are evaluated,
contradicting the claimed division guard. -/
theorem division_guard_counterexample :
    validateCheatInput
      ⟨some (JVal.jstr "session-1"), some (JVal.jstr "user-1"),
        some (JVal.jnum 0), some (JVal.jnum 0), some (JVal.jnum 10),
        some (JVal.jnum 0)⟩ = true ∧
    cheatHandler
      ⟨some (JVal.jstr "session-1"), some (JVal.jstr "user-1"),
        some (JVal.jnum 0), some (JVal.jnum 0), some (JVal.jnum 10),
        some (JVal.jnum 0)⟩ ≠ Except.error 400 := by
  constructor
  · rfl
  · intro h
    simp [cheatHandler, validateCheatInput, truthy, isNumber] at h

/-- C4 amended: the validation checks only truthiness of `session_id`
and `user_id` and that `score`, `total_questions`, `time_taken` are
numbers; it enforces no positivity, so every otherwise-valid request
with `total_questions = 0` is accepted and the scorer (with its
divisions) is evaluated on it. -/
theorem division_guard_amended (b : RawBody)
    (h0 : b.total_questions = some (JVal.jnum 0))
    (hs : truthy b.session_id = true)
    (hu : truthy b.user_id = true)
    (hsc : isNumber b.score = true)
    (ht : isNumber b.time_taken = true) :
    cheatHandler b =
      Except.ok (performAnomalyDetection (toCheatRequest b)) := by
  simp [cheatHandler, validateCheatInput, hs, hu, h0, isNumber, hsc, ht]
  exact ⟨hsc, ht⟩

/-- Witness for `division_guard_amended` at a concrete body with
`total_questions = 0`. -/
theorem division_guard_amended_witness :
    cheatHandler
      ⟨some (JVal.jstr "s"), some (JVal.jstr "u"), some (JVal.jnum 4),
        some (JVal.jnum 0), some (JVal.jnum 30), some (JVal.jnum 2)⟩ =
    Except.ok (performAnomalyDetection (toCheatRequest
      ⟨some (JVal.jstr "s"), some (JVal.jstr "u"), some (JVal.jnum 4),
        some (JVal.jnum 0), some (JVal.jnum 30), some (JVal.jnum 2)⟩)) :=
  division_guard_amended _ rfl rfl rfl rfl rfl

/-- C8 counterexample: a request missing the `streak` field entirely
passes validation and is not rejected with 400, contradicting the claim
that all six fields are required and type-checked. -/
theorem required_fields_counterexample :
    (⟨some (JVal.jstr "s2"), some (JVal.jstr "u2"), some (JVal.jnum 5),
        some (JVal.jnum 10), some (JVal.jnum 60), none⟩ : RawBody).streak
      = none ∧
    validateCheatInput
      ⟨some (JVal.jstr "s2"), some (JVal.jstr "u2"), some (JVal.jnum 5),
        some (JVal.jnum 10), some (JVal.jnum 60), none⟩ = true ∧
    cheatHandler
      ⟨some (JVal.jstr "s2"), some (JVal.jstr "u2"), some (JVal.jnum 5),
        some (JVal.jnum 10), some (JVal.jnum 60), none⟩
      ≠ Except.error 400 := by
  refine ⟨rfl, rfl, ?_⟩
  intro h
  simp [cheatHandler, validateCheatInput, truthy, isNumber] at h

/-- C8 amended: the endpoint rejects with 400 exactly when `session_id`
or `user_id` is missing/falsy or one of `score`, `total_questions`,
`time_taken` is missing or not a number; the `streak` field is never
inspected by the validation. -/
theorem required_fields_amended (b : RawBody) (s : Option JVal) :
    (validateCheatInput b = true ↔
      (truthy b.session_id = true ∧ truthy b.user_id = true ∧
       isNumber b.score = true ∧ isNumber b.total_questions = true ∧
       isNumber b.time_taken = true)) ∧
    validateCheatInput { b with streak := s } = validateCheatInput b ∧
    (cheatHandler b = Except.error 400 ↔ validateCheatInput b = false) := by
  refine ⟨?_, ?_, ?_⟩
  · simp [validateCheatInput]
    tauto
  · rfl
  · by_cases h : validateCheatInput b = true <;>
      simp [cheatHandler, h] at *

lemma providerName_inj : Function.Injective providerName := by
  intro p q h
  cases p <;> cases q <;> simp [providerName] at h ⊢

/-- Evaluation of `runFallback` on a three-provider order (the only
shape `providerOrder` produces), by cases on each adapter outcome. -/
lemma runFallback_eq_triple (aiProvider : String)
    (outcome : Provider → Except String String) (a b c : Provider)
    (hac : a ≠ c) (hbc : b ≠ c)
    (horder : providerOrder aiProvider = [a, b, c]) :
    runFallback aiProvider outcome =
      match outcome a with
      | .ok s => ([a],
          .ok ⟨s, providerName a, providerName a != aiProvider⟩)
      | .error _ =>
        match outcome b with
        | .ok s => ([a, b],
            .ok ⟨s, providerName b, providerName b != aiProvider⟩)
        | .error _ =>
          match outcome c with
          | .ok s => ([a, b, c],
              .ok ⟨s, providerName c, providerName c != aiProvider⟩)
          | .error e => ([a, b, c],
              .err ⟨500, [providerName a, providerName b, providerName c],
                "All providers failed. Last error: " ++ e⟩) := by
  unfold runFallback
  rw [horder]
  rcases h1 : outcome a with e1 | s1 <;>
    rcases h2 : outcome b with e2 | s2 <;>
      rcases h3 : outcome c with e3 | s3 <;>
        simp [providerLoop, h1, h2, h3, hac, hbc, List.getLastD]

/-- The fallback specification over one three-provider order: the loop
succeeds whenever some configured provider succeeds, and a success comes
from the first succeeding provider, with exactly the preceding providers
invoked and `fallback_used` true exactly when the used provider is not
the head of the order. -/
lemma fallback_triple_spec (aiProvider : String)
    (outcome : Provider → Except String String) (a b c : Provider)
    (hab : a ≠ b) (hac : a ≠ c) (hbc : b ≠ c)
    (hna : providerName a = aiProvider)
    (horder : providerOrder aiProvider = [a, b, c]) :
    ((∃ p, p ∈ ([a, b, c] : List Provider) ∧
        ∃ s, outcome p = Except.ok s) →
      ∃ s, (runFallback aiProvider outcome).2 = FallbackResult.ok s) ∧
    (∀ s, (runFallback aiProvider outcome).2 = FallbackResult.ok s →
      ∃ (k : ℕ) (hk : k < ([a, b, c] : List Provider).length),
        s.provider_used =
          providerName (([a, b, c] : List Provider).get ⟨k, hk⟩) ∧
        outcome (([a, b, c] : List Provider).get ⟨k, hk⟩) =
          Except.ok s.content ∧
        (∀ m (hm : m < k), ∃ e,
          outcome (([a, b, c] : List Provider).get
            ⟨m, Nat.lt_trans hm hk⟩) = Except.error e) ∧
        (runFallback aiProvider outcome).1 =
          ([a, b, c] : List Provider).take (k + 1) ∧
        (s.fallback_used = true ↔
          ([a, b, c] : List Provider).head? ≠
            some (([a, b, c] : List Provider).get ⟨k, hk⟩))) := by
  have heq := runFallback_eq_triple aiProvider outcome a b c hac hbc horder
  have hnb : providerName b ≠ aiProvider := fun h =>
    hab (providerName_inj (hna.trans h.symm))
  have hnc : providerName c ≠ aiProvider := fun h =>
    hac (providerName_inj (hna.trans h.symm))
  constructor
  · rintro ⟨p, hp, s0, hs0⟩
    rw [heq]
    rcases h1 : outcome a with e1 | s1 <;>
      rcases h2 : outcome b with e2 | s2 <;>
        rcases h3 : outcome c with e3 | s3 <;>
          first
            | exact ⟨⟨s1, providerName a, providerName a != aiProvider⟩,
                by simp [h1]⟩
            | exact ⟨⟨s2, providerName b, providerName b != aiProvider⟩,
                by simp [h1, h2]⟩
            | exact ⟨⟨s3, providerName c, providerName c != aiProvider⟩,
                by simp [h1, h2, h3]⟩
            | (exfalso
               simp at hp
               rcases hp with rfl | rfl | rfl <;>
                 simp [h1, h2, h3] at hs0)
  · intro s hs
    rw [heq] at hs
    rcases h1 : outcome a with e1 | s1
    · rcases h2 : outcome b with e2 | s2
      · rcases h3 : outcome c with e3 | s3
        · simp [h1, h2, h3] at hs
        · simp only [h1, h2, h3] at hs
          simp at hs
          subst hs
          refine ⟨2, by simp, by simp, h3, ?_, ?_, ?_⟩
          · intro m hm
            interval_cases m
            · exact ⟨e1, h1⟩
            · exact ⟨e2, h2⟩
          · rw [heq]
            simp [h1, h2, h3]
          · simp [bne_iff_ne, hnc, hac]
      · simp only [h1, h2] at hs
        simp at hs
        subst hs
        refine ⟨1, by simp, by simp, h2, ?_, ?_, ?_⟩
        · intro m hm
          interval_cases m
          exact ⟨e1, h1⟩
        · rw [heq]
          simp [h1, h2]
        · simp [bne_iff_ne, hnb, hab]
    · simp only [h1] at hs
      simp at hs
      subst hs
      refine ⟨0, by simp, by simp, h1, ?_, ?_, ?_⟩
      · intro m hm
        omega
      · rw [heq]
        simp [h1]
      · simp [bne_iff_ne, hna]

/-- C6: for every valid provider configuration and every assignment of
success/failure outcomes to the adapters, the fallback loop invokes
providers strictly in order, stops at the first success (invoking no
later candidate), reports `provider_used` as the name of that provider, and
`fallback_used` is true exactly when the used provider differs from the
first configured provider. -/
theorem provider_fallback_order (aiProvider : String)
    (outcome : Provider → Except String String)
    (hvalid : aiProvider = "openai" ∨ aiProvider = "huggingface" ∨
      aiProvider = "pythonanywhere") :
    ((∃ p, p ∈ providerOrder aiProvider ∧ ∃ s, outcome p = Except.ok s) →
      ∃ s, (runFallback aiProvider outcome).2 = FallbackResult.ok s) ∧
    (∀ s, (runFallback aiProvider outcome).2 = FallbackResult.ok s →
      ∃ (k : ℕ) (hk : k < (providerOrder aiProvider).length),
        s.provider_used =
          providerName ((providerOrder aiProvider).get ⟨k, hk⟩) ∧
        outcome ((providerOrder aiProvider).get ⟨k, hk⟩) =
          Except.ok s.content ∧
        (∀ m (hm : m < k), ∃ e,
          outcome ((providerOrder aiProvider).get ⟨m, Nat.lt_trans hm hk⟩) =
            Except.error e) ∧
        (runFallback aiProvider outcome).1 =
          (providerOrder aiProvider).take (k + 1) ∧
        (s.fallback_used = true ↔
          (providerOrder aiProvider).head? ≠
            some ((providerOrder aiProvider).get ⟨k, hk⟩))) := by
  rcases hvalid with h | h | h <;> subst h
  · exact fallback_triple_spec _ outcome .openai .huggingface .pythonanywhere
      (by decide) (by decide) (by decide) rfl rfl
  · exact fallback_triple_spec _ outcome .huggingface .openai .pythonanywhere
      (by decide) (by decide) (by decide) rfl rfl
  · exact fallback_triple_spec _ outcome .pythonanywhere .openai .huggingface
      (by decide) (by decide) (by decide) rfl rfl

/-- Witness for `provider_fallback_order` at the default configuration
with `demoOutcome`. -/
theorem provider_fallback_order_witness :
    ∃ s, (runFallback "openai" demoOutcome).2 = FallbackResult.ok s :=
  (provider_fallback_order "openai" demoOutcome (Or.inl rfl)).1
    ⟨Provider.pythonanywhere, by decide, "generated", rfl⟩

/-- Exhaustion of one three-provider order: both handlers surface the
500 failure body. -/
lemma all_fail_triple (aiProvider text targetLang message : String)
    (outcome : Provider → Except String String) (x y z : Provider)
    (hxz : x ≠ z) (hyz : y ≠ z)
    (horder : providerOrder aiProvider = [x, y, z])
    (htext : jsTrim text ≠ "") (hlang : jsTrim targetLang ≠ "")
    (hen : ¬ (jsToLower targetLang = "en" ∨
      jsToLower targetLang = "english"))
    (hmsg : jsTrim message ≠ "")
    (h1 : ∃ e, outcome x = Except.error e)
    (h2 : ∃ e, outcome y = Except.error e)
    (h3 : ∃ e, outcome z = Except.error e) :
    ∃ (f : FailureBody) (e : String),
      translateHandler aiProvider text targetLang outcome =
        (providerOrder aiProvider, TranslateResult.errAll f) ∧
      chatHandler aiProvider message outcome =
        (providerOrder aiProvider, ChatResult.errAll f) ∧
      f.status = 500 ∧
      f.attempted_providers = (providerOrder aiProvider).map providerName ∧
      outcome ((providerOrder aiProvider).getLastD Provider.openai) =
        Except.error e ∧
      f.details = "All providers failed. Last error: " ++ e := by
  obtain ⟨e1, h1⟩ := h1
  obtain ⟨e2, h2⟩ := h2
  obtain ⟨e3, h3⟩ := h3
  have heq := runFallback_eq_triple aiProvider outcome x y z hxz hyz horder
  have hrf : runFallback aiProvider outcome = ([x, y, z],
      FallbackResult.err ⟨500,
        [providerName x, providerName y, providerName z],
        "All providers failed. Last error: " ++ e3⟩) := by
    rw [heq]
    simp [h1, h2, h3]
  rw [horder]
  refine ⟨⟨500, [providerName x, providerName y, providerName z],
    "All providers failed. Last error: " ++ e3⟩, e3, ?_, ?_, rfl,
    by simp, ?_, rfl⟩
  · unfold translateHandler
    rw [if_neg htext, if_neg hlang, if_neg hen, hrf]
  · unfold chatHandler
    rw [if_neg hmsg, hrf]
  · simpa [List.getLastD] using h3

/-- C7: when every provider adapter fails, the translate-text and
ai-tutor-chat handlers return the 500 failure body whose
`attempted_providers` lists every candidate name in the order attempted
and whose `details` contains the message of the last failure; no
success-shaped result is returned. -/
theorem all_providers_fail_500 (aiProvider text targetLang message : String)
    (outcome : Provider → Except String String)
    (htext : jsTrim text ≠ "") (hlang : jsTrim targetLang ≠ "")
    (hen : ¬ (jsToLower targetLang = "en" ∨
      jsToLower targetLang = "english"))
    (hmsg : jsTrim message ≠ "")
    (hfail : ∀ p ∈ providerOrder aiProvider,
      ∃ e, outcome p = Except.error e) :
    ∃ (f : FailureBody) (e : String),
      translateHandler aiProvider text targetLang outcome =
        (providerOrder aiProvider, TranslateResult.errAll f) ∧
      chatHandler aiProvider message outcome =
        (providerOrder aiProvider, ChatResult.errAll f) ∧
      f.status = 500 ∧
      f.attempted_providers = (providerOrder aiProvider).map providerName ∧
      outcome ((providerOrder aiProvider).getLastD Provider.openai) =
        Except.error e ∧
      f.details = "All providers failed. Last error: " ++ e := by
  by_cases ha : aiProvider = "openai"
  · subst ha
    exact all_fail_triple _ text targetLang message outcome
      .openai .huggingface .pythonanywhere (by decide) (by decide) rfl
      htext hlang hen hmsg
      (hfail _ (by decide)) (hfail _ (by decide)) (hfail _ (by decide))
  · by_cases hb : aiProvider = "huggingface"
    · subst hb
      exact all_fail_triple _ text targetLang message outcome
        .huggingface .openai .pythonanywhere (by decide) (by decide) rfl
        htext hlang hen hmsg
        (hfail _ (by decide)) (hfail _ (by decide)) (hfail _ (by decide))
    · have horder : providerOrder aiProvider =
          [.pythonanywhere, .openai, .huggingface] := by
        simp [providerOrder, ha, hb]
      exact all_fail_triple _ text targetLang message outcome
        .pythonanywhere .openai .huggingface (by decide) (by decide) horder
        htext hlang hen hmsg
        (hfail _ (by rw [horder]; simp)) (hfail _ (by rw [horder]; simp))
        (hfail _ (by rw [horder]; simp))

/-- Witness for `all_providers_fail_500` at a concrete request with the
default configuration and `allFailOutcome`. -/
theorem all_providers_fail_500_witness :
    ∃ (f : FailureBody) (e : String),
      translateHandler "openai" "Hello world" "fr" allFailOutcome =
        (providerOrder "openai", TranslateResult.errAll f) ∧
      chatHandler "openai" "What is a star" allFailOutcome =
        (providerOrder "openai", ChatResult.errAll f) ∧
      f.status = 500 ∧
      f.attempted_providers = (providerOrder "openai").map providerName ∧
      allFailOutcome ((providerOrder "openai").getLastD Provider.openai) =
        Except.error e ∧
      f.details = "All providers failed. Last error: " ++ e :=
  all_providers_fail_500 "openai" "Hello world" "fr" "What is a star"
    allFailOutcome (by decide) (by decide) (by decide) (by decide)
    (by intro p hp; cases p <;> exact ⟨_, rfl⟩)

/-- C9: a valid translation request whose target language lowercases to
`en` or `english` short-circuits: the handler returns the input text
unmodified with `provider_used` equal to `none` and invokes no provider
adapter. -/
theorem english_short_circuit (aiProvider text targetLang : String)
    (outcome : Provider → Except String String)
    (htext : jsTrim text ≠ "") (hlang : jsTrim targetLang ≠ "")
    (hen : jsToLower targetLang = "en" ∨ jsToLower targetLang = "english") :
    translateHandler aiProvider text targetLang outcome =
      ([], TranslateResult.ok text "none" false) := by
  unfold translateHandler
  rw [if_neg htext, if_neg hlang, if_pos hen]

/-- Witness for `english_short_circuit` with target language `EN`. -/
theorem english_short_circuit_witness :
    translateHandler "openai" "Hello world, how are you" "EN" demoOutcome =
      ([], TranslateResult.ok "Hello world, how are you" "none" false) :=
  english_short_circuit "openai" "Hello world, how are you" "EN" demoOutcome
    (by decide) (by decide) (Or.inl (by decide))

lemma mem_listSwap {α : Type} {l : List α} {i j : Nat} {x : α} :
    x ∈ listSwap l i j ↔ x ∈ l := by
  unfold listSwap
  rcases hi : l.get? i with _ | a
  · rcases hj : l.get? j with _ | b <;> simp [hi, hj]
  · rcases hj : l.get? j with _ | b
    · simp [hi, hj]
    · simp only [hi, hj]
      constructor
      · intro hx
        rcases List.mem_or_eq_of_mem_set hx with hx1 | rfl
        · rcases List.mem_or_eq_of_mem_set hx1 with hx2 | rfl
          · exact hx2
          · exact List.get?_mem hj
        · exact List.get?_mem hi
      · intro hx
        obtain ⟨k, hk⟩ := List.mem_iff_get?.mp hx
        have hjlen : j < l.length := by
          obtain ⟨h, _⟩ := List.get?_eq_some.mp hj
          exact h
        by_cases hkj : k = j
        · have hxb : x = b := by
            rw [hkj] at hk
            rw [hk] at hj
            exact Option.some_inj.mp hj
          rw [hxb]
          by_cases hij : i = j
          · have hab : a = b := by
              rw [hij] at hi
              rw [hi] at hj
              exact Option.some_inj.mp hj
            rw [← hab]
            refine List.get?_mem (n := j) ?_
            obtain ⟨v, hv⟩ : ∃ v, (l.set i a).get? j = some v := by
              rw [List.get?_eq_get (by simpa using hjlen)]
              exact ⟨_, rfl⟩
            rw [List.get?_set_eq, hv]
            rfl
          · refine List.get?_mem (n := i) ?_
            rw [List.get?_set_ne a _ (fun h => hij h.symm),
              List.get?_set_eq, hi]
            rfl
        · by_cases hki : k = i
          · have hxa : x = a := by
              rw [hki] at hk
              rw [hk] at hi
              exact Option.some_inj.mp hi
            rw [hxa]
            refine List.get?_mem (n := j) ?_
            obtain ⟨v, hv⟩ : ∃ v, (l.set i b).get? j = some v := by
              rw [List.get?_eq_get (by simpa using hjlen)]
              exact ⟨_, rfl⟩
            rw [List.get?_set_eq, hv]
            rfl
          · refine List.get?_mem (n := k) ?_
            rw [List.get?_set_ne a _ (fun h => hkj h.symm),
              List.get?_set_ne b _ (fun h => hki h.symm)]
            exact hk

lemma mem_fyGo {α : Type} (rand : Nat → Nat) (x : α) :
    ∀ (fuel : Nat) (l : List α), x ∈ fyGo rand fuel l ↔ x ∈ l
  | 0, _ => Iff.rfl
  | fuel + 1, l => (mem_fyGo rand x fuel _).trans mem_listSwap

lemma mem_shuffleArray {α : Type} (rand : Nat → Nat) (l : List α)
    (x : α) : x ∈ shuffleArray rand l ↔ x ∈ l :=
  mem_fyGo rand x (l.length - 1) l

lemma mem_dedupGo (x : String) :
    ∀ (l acc : List String), x ∈ acc ∨ x ∈ l → x ∈ dedupGo acc l
  | [], acc, h => by
    rcases h with h | h
    · exact h
    · simp at h
  | o :: rest, acc, h => by
    unfold dedupGo
    split_ifs with ho
    · refine mem_dedupGo x rest acc ?_
      rcases h with h | h
      · exact Or.inl h
      · rcases List.mem_cons.mp h with rfl | h
        · exact Or.inl ho
        · exact Or.inr h
    · refine mem_dedupGo x rest (acc ++ [o]) ?_
      rcases h with h | h
      · exact Or.inl (List.mem_append_left _ h)
      · rcases List.mem_cons.mp h with rfl | h
        · exact Or.inl (List.mem_append_right _ (by simp))
        · exact Or.inr h

lemma dedupGo_length :
    ∀ (l acc : List String), (dedupGo acc l).length ≤ acc.length + l.length
  | [], acc => by simp [dedupGo]
  | o :: rest, acc => by
    unfold dedupGo
    split_ifs with ho
    · have := dedupGo_length rest acc
      simp only [List.length_cons]
      omega
    · have h := dedupGo_length rest (acc ++ [o])
      simp only [List.length_append, List.length_cons, List.length_nil] at h
      simp only [List.length_cons]
      omega

lemma padOptions_extends :
    ∀ (fuel : Nat) (l : List String), ∃ ext, padOptions fuel l = l ++ ext
  | 0, l => ⟨[], by simp [padOptions]⟩
  | fuel + 1, l => by
    unfold padOptions
    split_ifs with h
    · obtain ⟨ext, hext⟩ :=
        padOptions_extends fuel (l ++ ["Option " ++ toString (l.length + 1)])
      exact ⟨("Option " ++ toString (l.length + 1)) :: ext, by
        rw [hext]; simp⟩
    · exact ⟨[], by simp⟩

lemma padOptions_of_le (fuel : Nat) (l : List String)
    (h : 4 ≤ l.length) : padOptions fuel l = l := by
  cases fuel with
  | zero => rfl
  | succ fuel =>
    unfold padOptions
    rw [if_neg (by omega)]

lemma padOptions_length :
    ∀ (fuel : Nat) (l : List String), 4 ≤ l.length + fuel →
      l.length ≤ 4 → (padOptions fuel l).length = 4
  | 0, l, h1, h2 => by
    simp [padOptions]
    omega
  | fuel + 1, l, h1, h2 => by
    unfold padOptions
    split_ifs with h
    · refine padOptions_length fuel _ (by simp; omega) (by simp; omega)
    · omega

lemma padAlternatives_extends :
    ∀ (fuel : Nat) (l : List String),
      ∃ ext, padAlternatives fuel l = l ++ ext
  | 0, l => ⟨[], by simp [padAlternatives]⟩
  | fuel + 1, l => by
    unfold padAlternatives
    split_ifs with h
    · obtain ⟨ext, hext⟩ :=
        padAlternatives_extends fuel (l ++ [freshAlternative l l.length])
      exact ⟨freshAlternative l l.length :: ext, by rw [hext]; simp⟩
    · exact ⟨[], by simp⟩

/-- The correct answer survives deduplication, generic re-padding,
`slice(0, 4)` and the shuffle. -/
lemma mem_shuffled_pipeline (fo1 : List String) (t : String)
    (rand : Nat → Nat) (h1 : t ∈ fo1) (hlen : fo1.length ≤ 4) :
    t ∈ (shuffleArray rand
      ((padAlternatives 4 (dedupGo [] fo1)).take 4).enum).map Prod.snd := by
  have hd : t ∈ dedupGo [] fo1 := mem_dedupGo t fo1 [] (Or.inr h1)
  have hdl : (dedupGo [] fo1).length ≤ 4 := by
    have := dedupGo_length fo1 []
    simp at this
    omega
  obtain ⟨ext, hext⟩ := padAlternatives_extends 4 (dedupGo [] fo1)
  have htake : t ∈ (padAlternatives 4 (dedupGo [] fo1)).take 4 := by
    rw [hext, List.take_append_eq_append_take, List.take_all_of_le hdl]
    exact List.mem_append_left _ hd
  obtain ⟨p, hpmem, hpt⟩ : ∃ p ∈
      ((padAlternatives 4 (dedupGo [] fo1)).take 4).enum, p.2 = t := by
    have he := List.enum_map_snd
      ((padAlternatives 4 (dedupGo [] fo1)).take 4)
    rw [← he] at htake
    exact List.mem_map.mp htake
  exact List.mem_map.mpr
    ⟨p, (mem_shuffleArray rand _ p).mpr hpmem, hpt⟩

/-- C1: for every extracted option set of size 2–5 and every in-range
correct-option label, the normalisation to exactly 4 options
and Fisher–Yates shuffle succeed, and the returned correct-answer index
points at an option whose text equals the originally-identified correct
option text — for every possible sequence of random draws. -/
theorem adapter_preserves_correct_answer
    (extractedOptions : List String) (n : Nat) (rand : Nat → Nat)
    (h2 : 2 ≤ extractedOptions.length) (h5 : extractedOptions.length ≤ 5)
    (hn1 : 1 ≤ n) (hn : n ≤ extractedOptions.length)
    (t : String) (ht : extractedOptions.get? (n - 1) = some t) :
    ∃ (shuffled : List String) (idx : Nat),
      normalizeAndShuffle extractedOptions n rand = some (shuffled, idx) ∧
      shuffled.get? idx = some t := by
  have hget : (padOptions 4 (if extractedOptions.length > 4 then
      (if n - 1 ≥ 4 then (extractedOptions.set 3 t).take 4
       else extractedOptions.take 4) else extractedOptions)).get?
      (min (n - 1) 3) = some t := by
    by_cases hl : extractedOptions.length > 4
    · rw [if_pos hl]
      by_cases hi : n - 1 ≥ 4
      · rw [if_pos hi]
        rw [padOptions_of_le _ _
          (by simp [List.length_take, List.length_set]; omega)]
        have hmin : min (n - 1) 3 = 3 := by omega
        rw [hmin, List.get?_take (by omega : (3 : ℕ) < 4),
          List.get?_set_eq]
        obtain ⟨v, hv⟩ : ∃ v, extractedOptions.get? 3 = some v := by
          rw [List.get?_eq_get (by omega)]
          exact ⟨_, rfl⟩
        rw [hv]
        rfl
      · rw [if_neg hi]
        rw [padOptions_of_le _ _ (by simp [List.length_take]; omega)]
        have hmin : min (n - 1) 3 = n - 1 := by omega
        rw [hmin, List.get?_take (by omega)]
        exact ht
    · rw [if_neg hl]
      obtain ⟨ext, hext⟩ := padOptions_extends 4 extractedOptions
      have hmin : min (n - 1) 3 = n - 1 := by omega
      rw [hmin, hext, List.get?_append (by omega)]
      exact ht
  have hlen0 : (if extractedOptions.length > 4 then
      (if n - 1 ≥ 4 then (extractedOptions.set 3 t).take 4
       else extractedOptions.take 4) else extractedOptions).length ≤ 4 := by
    split_ifs with ha hb
    · simp only [List.length_take, List.length_set]
      omega
    · simp only [List.length_take]
      omega
    · omega
  have hlen1 : (padOptions 4 (if extractedOptions.length > 4 then
      (if n - 1 ≥ 4 then (extractedOptions.set 3 t).take 4
       else extractedOptions.take 4) else extractedOptions)).length = 4 :=
    padOptions_length 4 _ (by omega) hlen0
  have hmem1 : t ∈ padOptions 4 (if extractedOptions.length > 4 then
      (if n - 1 ≥ 4 then (extractedOptions.set 3 t).take 4
       else extractedOptions.take 4) else extractedOptions) :=
    List.get?_mem hget
  have hmem : t ∈ (shuffleArray rand
      ((padAlternatives 4 (dedupGo [] (padOptions 4
        (if extractedOptions.length > 4 then
          (if n - 1 ≥ 4 then (extractedOptions.set 3 t).take 4
           else extractedOptions.take 4)
         else extractedOptions)))).take 4).enum).map Prod.snd :=
    mem_shuffled_pipeline _ t rand hmem1 (le_of_eq hlen1)
  simp only [normalizeAndShuffle, ht]
  rw [if_neg (by omega), if_neg (by omega)]
  simp only [hget]
  rw [if_pos hmem]
  exact ⟨_, _, rfl, List.indexOf_get? hmem⟩

/-- Witness for `adapter_preserves_correct_answer` on a 5-option input
with `CorrectOption = Option3` and the constant-zero draw sequence. -/
theorem adapter_preserves_correct_answer_witness :
    ∃ (shuffled : List String) (idx : Nat),
      normalizeAndShuffle ["London", "Berlin", "Paris", "Rome", "Madrid"]
        3 (fun _ => 0) = some (shuffled, idx) ∧
      shuffled.get? idx = some "Paris" :=
  adapter_preserves_correct_answer _ 3 _ (by decide) (by decide)
    (by decide) (by decide) "Paris" (by decide)

end AstroQuiz
